import Mathlib

/- Shallow embedding of the HelpOn incident-dispatch core, translated from
   src/api/main.py (endpoints get_history, create_emergency,
   get_nearby_emergencies, accept_emergency, complete_emergency) together
   with the data model of src/api/models.py.

   Modelling choices:
   * MongoDB documents become Lean structures; ObjectId values and their
     str(...) images become Nat (the str/ObjectId round trips in the code
     are identity on the abstract id).
   * datetime values become Nat timestamps; datetime.isoformat is strictly
     monotone in the timestamp, so sorting by the iso string in get_history
     is modelled by sorting by the Nat timestamp.
   * A MongoDB collection becomes a List of documents in insertion order;
     update_one updates the first document matching the filter and reports
     whether one matched; find_one returns the first match; find with a
     filter is List.filter; cursor.to_list with a length bound is List.take;
     sort("created_at", -1) is a stable descending sort (Python sorts are
     stable, as is List.insertionSort).
   * HTTPException carries the status code and detail of the raise sites.
   * The fields accepted_by (queried by get_history but never written by
     any endpoint) and helper_id / helper_name (written on acceptance) are
     Option valued: a missing document key reads as none.
   * created_name is always written by create_emergency and full_name is a
     required registration field, so the .get fallbacks for it in the read
     endpoints ("Someone", "Unknown User") are kept as Option.getD.
   * datetime.utcnow() is called once per insert in the code; the claims
     never depend on the sub-call timestamps differing, so one now value is
     threaded per request.
   * Python str.lower on the ASCII category tags is modelled by strLower.
   * The constant presentation fields rating (a float literal 5.0),
     duration and location of a history entry are omitted: they are
     constants independent of the store state. -/

namespace HelpOn

/-- HTTP error outcome as raised by the endpoints. -/
structure HTTPException where
  status_code : Nat
  detail : String
  deriving DecidableEq

/-- A document of the users collection (registration fields that the core
reads, plus the reward counters and the liveness timestamp). -/
structure User where
  id : Nat
  full_name : String
  points : Int
  helps_given : Int
  last_active : Option Nat
  deriving DecidableEq

/-- A document of the emergencies collection, as written by
create_emergency / accept_emergency / complete_emergency. The location
subdocument is flattened to its two coordinates. -/
structure Incident where
  id : Nat
  type : String
  description : String
  lon : Int
  lat : Int
  created_by : Nat
  created_name : Option String
  status : String
  helper_id : Option Nat
  helper_name : Option String
  accepted_by : Option Nat
  created_at : Nat
  deriving DecidableEq

/-- A document of the notifications collection. -/
structure Notification where
  user_id : Nat
  title : String
  message : String
  type : String
  is_read : Bool
  created_at : Nat
  deriving DecidableEq

/-- One entry of the get_history response. -/
structure HistoryEntry where
  id : Nat
  type : String
  emergencyType : String
  title : String
  description : String
  person : String
  date : Nat
  points : Int
  status : String
  helper : Option String
  deriving DecidableEq

/-- One entry of the get_nearby_emergencies response. -/
structure NearbyEmergency where
  id : Nat
  type : String
  description : String
  lat : Int
  lon : Int
  created_by : String
  status : String
  created_at : Nat
  deriving DecidableEq

/-- The shared persistent state: the three collections the lifecycle
endpoints touch. -/
structure DB where
  users : List User
  emergencies : List Incident
  notifications : List Notification
  deriving DecidableEq

/-- Lowercase an ASCII letter, as Python str.lower does on ASCII input. -/
def asciiLower (c : Char) : Char :=
  if 65 ≤ c.toNat ∧ c.toNat ≤ 90 then Char.ofNat (c.toNat + 32) else c

/-- Python str.lower restricted to ASCII strings (the category tags). -/
def strLower (s : String) : String := String.mk (s.data.map asciiLower)

/-- MongoDB update_one: rewrite the first document matching the filter and
report it, or return none when no document matches (matched_count 0, and
then also modified_count 0). -/
def updateFirst (l : List α) (p : α → Bool) (f : α → α) : Option (List α) :=
  match l with
  | [] => none
  | x :: xs => if p x then some (f x :: xs) else (updateFirst xs p f).map (fun ys => x :: ys)

/-- MongoDB update_one when the caller ignores the result: the collection
is unchanged when nothing matched. -/
def setFirst (l : List α) (p : α → Bool) (f : α → α) : List α :=
  (updateFirst l p f).getD l

/-- Stable descending sort by creation timestamp, modelling
sort("created_at", -1). -/
def sortByCreatedDesc (l : List Incident) : List Incident :=
  List.insertionSort (fun a b => b.created_at ≤ a.created_at) l

/-- The alert Notification document inserted for one recipient during the
create_emergency fan-out. -/
def alertDoc (creator : User) (description : String) (now : Nat) (u : User) : Notification :=
  { user_id := u.id
    title := "Emergency Alert"
    message := (some creator.full_name).getD "None" ++ " triggered an SOS nearby: " ++ description
    type := "alert"
    is_read := false
    created_at := now }

/-- The Incident document inserted by create_emergency. -/
def incidentDoc (creator : User) (ty description : String) (lon lat : Int) (now : Nat) (newId : Nat) : Incident :=
  { id := newId
    type := ty
    description := description
    lon := lon
    lat := lat
    created_by := creator.id
    created_name := some creator.full_name
    status := "active"
    helper_id := none
    helper_name := none
    accepted_by := none
    created_at := now }

/-- The fan-out loop of create_emergency: for each other user, in cursor
order, insert one alert notification. The insert for a recipient may fail
at the store (fails names the failing recipients); the loop body has no
exception handler, so the first failure stops the loop and propagates,
leaving the notifications inserted so far committed. The Bool records
whether the loop ran to completion. -/
def notifyLoop (mk : User → Notification) (fails : Nat → Bool) :
    List User → List Notification → Bool × List Notification
  | [], acc => (true, acc)
  | u :: rest, acc =>
    if fails u.id then (false, acc)
    else notifyLoop mk fails rest (acc ++ [mk u])

/-- create_emergency under an explicit per-recipient store-failure model:
insert the incident (this commit always happens first), then fan out one
alert notification to every user other than the creator. Returns whether
the fan-out completed without a store failure, together with the final
state. -/
def create_emergency_f (db : DB) (creator : User) (ty description : String)
    (lon lat : Int) (now : Nat) (newId : Nat) (fails : Nat → Bool) : Bool × DB :=
  let inc := incidentDoc creator ty description lon lat now newId
  let db1 : DB := { db with emergencies := db.emergencies ++ [inc] }
  let others := db.users.filter (fun u => u.id != creator.id)
  let r := notifyLoop (alertDoc creator description now) fails others db1.notifications
  (r.1, { db1 with notifications := r.2 })

/-- create_emergency on a store whose notification inserts all succeed. -/
def create_emergency (db : DB) (creator : User) (ty description : String)
    (lon lat : Int) (now : Nat) (newId : Nat) : DB :=
  (create_emergency_f db creator ty description lon lat now newId (fun _ => false)).2

/-- get_nearby_emergencies: project the active incidents (the cursor is
read with to_list(length=100)) and count the users whose last_active lies
in the trailing one-hour window. -/
def get_nearby_emergencies (db : DB) (now : Nat) : List NearbyEmergency × Nat :=
  let emergencies := (db.emergencies.filter (fun e => e.status == "active")).take 100
  let response := emergencies.map (fun e =>
    { id := e.id
      type := e.type
      description := e.description
      lat := e.lat
      lon := e.lon
      created_by := e.created_name.getD "Someone"
      status := e.status
      created_at := e.created_at } : Incident → NearbyEmergency)
  let active_helpers := (db.users.filter (fun u =>
    match u.last_active with
    | some t => decide (now - 3600 ≤ t)
    | none => false)).length
  (response, active_helpers)

/-- accept_emergency: one conditional update_one, filtered on both the id
and status "active", setting the status and the helper snapshot; a
modified_count of 0 raises 400. -/
def accept_emergency (db : DB) (eid : Nat) (current_user : User) : Except HTTPException DB :=
  match updateFirst db.emergencies
      (fun e => e.id == eid && e.status == "active")
      (fun e => { e with
        status := "accepted"
        helper_id := some current_user.id
        helper_name := some current_user.full_name }) with
  | some es => Except.ok { db with emergencies := es }
  | none => Except.error ⟨400, "Emergency not found or already accepted."⟩

/-- The reward Notification document inserted for the helper by
complete_emergency. -/
def rewardDoc (closer : User) (hid : Nat) (now : Nat) : Notification :=
  { user_id := hid
    title := "Help Rewards"
    message := closer.full_name ++ " marked the emergency as resolved! You have been awarded 20 HelpPoints."
    type := "reward"
    is_read := false
    created_at := now }

/-- complete_emergency: find_one on the id (404 when absent), a
requester-only authorization check (403), then an unconditional update_one
marking the incident resolved, and, when the snapshot carries a helper_id,
an increment of that helper by 20 points and 1 help plus one reward
notification insert. -/
def complete_emergency (db : DB) (eid : Nat) (current_user : User) (now : Nat) :
    Except HTTPException DB :=
  match db.emergencies.find? (fun e => e.id == eid) with
  | none => Except.error ⟨404, "Emergency not found"⟩
  | some em =>
    if em.created_by != current_user.id then
      Except.error ⟨403, "Only the user who requested help can complete the SOS."⟩
    else
      let es := setFirst db.emergencies (fun e => e.id == eid) (fun e => { e with status := "resolved" })
      let db1 : DB := { db with emergencies := es }
      match em.helper_id with
      | none => Except.ok db1
      | some hid =>
        let us := setFirst db1.users (fun u => u.id == hid)
          (fun u => { u with points := u.points + 20, helps_given := u.helps_given + 1 })
        let db2 : DB := { db1 with users := us }
        Except.ok { db2 with notifications := db2.notifications ++ [rewardDoc current_user hid now] }

/-- get_history: the requested view (created_by matches), the responded
view (accepted_by matches), each sorted descending by creation time and
truncated to 50, projected to history entries and merged by a stable
descending sort on the date. -/
def get_history (db : DB) (current_user : User) : List HistoryEntry :=
  let user_id := current_user.id
  let requests := (sortByCreatedDesc (db.emergencies.filter
    (fun e => e.created_by == user_id))).take 50
  let responses := (sortByCreatedDesc (db.emergencies.filter
    (fun e => e.accepted_by == some user_id))).take 50
  let requestedEntries := requests.map (fun req =>
    let helper_name : Option String :=
      match req.accepted_by with
      | none => none
      | some hid =>
        match db.users.find? (fun u => u.id == hid) with
        | none => none
        | some hu => some hu.full_name
    { id := req.id
      type := "requested"
      emergencyType := strLower req.type
      title := "Requested SOS"
      description := req.description
      person := "You"
      date := req.created_at
      points := 0
      status := req.status
      helper := helper_name } : Incident → HistoryEntry)
  let respondedEntries := responses.map (fun res =>
    { id := res.id
      type := "responded"
      emergencyType := strLower res.type
      title := "Responded to SOS"
      description := res.description
      person := res.created_name.getD "Unknown User"
      date := res.created_at
      points := if res.status == "completed" then (20 : Int) else 0
      status := res.status
      helper := none } : Incident → HistoryEntry)
  List.insertionSort (fun a b => b.date ≤ a.date) (requestedEntries ++ respondedEntries)

/-- Run a batch of accept_emergency calls on the same incident, one per
caller, in the given serialization order. Each call performs exactly one
atomic store operation (the conditional update_one), so any concurrent
execution of the calls is equivalent to running them in some order; the
order is the quantified serialization. Records per call whether it
reported success, together with the final state. -/
def runAccepts (db : DB) (eid : Nat) : List User → List Bool × DB
  | [] => ([], db)
  | c :: rest =>
    match accept_emergency db eid c with
    | Except.ok db1 =>
      let r := runAccepts db1 eid rest
      (true :: r.1, r.2)
    | Except.error _ =>
      let r := runAccepts db eid rest
      (false :: r.1, r.2)

/- Concrete fixtures: three registered users and the states reached by
running the lifecycle endpoints on them. -/

def uAlice : User := ⟨0, "Alice", 0, 0, none⟩

def uBob : User := ⟨1, "Bob", 0, 0, none⟩

def uCarol : User := ⟨2, "Carol", 0, 0, none⟩

def dbSeed : DB := ⟨[uAlice, uBob, uCarol], [], []⟩

/-- State after uAlice broadcasts an SOS (incident id 10). -/
def dbCreated : DB := create_emergency dbSeed uAlice "Medical" "fall" 3 4 1 10

/-- The incident document of dbCreated, written out. -/
def emActive : Incident := ⟨10, "Medical", "fall", 3, 4, 0, some "Alice", "active", none, none, none, 1⟩

/-- State after uBob accepts incident 10. -/
def dbAccepted : DB :=
  match accept_emergency dbCreated 10 uBob with
  | Except.ok d => d
  | Except.error _ => dbCreated

/-- The incident document of dbAccepted, written out. -/
def emAccepted : Incident := ⟨10, "Medical", "fall", 3, 4, 0, some "Alice", "accepted", some 1, some "Bob", none, 1⟩

/-- State after uAlice (the requester) completes incident 10. -/
def dbResolved : DB :=
  match complete_emergency dbAccepted 10 uAlice 3 with
  | Except.ok d => d
  | Except.error _ => dbAccepted

/-- The incident document of dbResolved, written out. -/
def emResolved : Incident := ⟨10, "Medical", "fall", 3, 4, 0, some "Alice", "resolved", some 1, some "Bob", none, 1⟩

/-- The state of uBob after the first completion paid out. -/
def uBobRewarded : User := ⟨1, "Bob", 20, 1, none⟩

/-- State after uAlice calls complete a second time on the resolved
incident. -/
def dbResolvedTwice : DB :=
  match complete_emergency dbResolved 10 uAlice 4 with
  | Except.ok d => d
  | Except.error _ => dbResolved

/-- State after uAlice accepts her own incident 10 (starting from
dbCreated). -/
def dbSelfAccepted : DB :=
  match accept_emergency dbCreated 10 uAlice with
  | Except.ok d => d
  | Except.error _ => dbCreated

/-- State after uAlice completes her own self-accepted incident. -/
def dbSelfResolved : DB :=
  match complete_emergency dbSelfAccepted 10 uAlice 3 with
  | Except.ok d => d
  | Except.error _ => dbSelfAccepted

/-- Store-failure model in which the notification insert for uBob (id 1)
fails and every other insert succeeds. -/
def failsBob : Nat → Bool := fun i => i == 1

/-- A state holding 101 active incidents. -/
def manyActive : List Incident :=
  (List.range 101).map (fun i => ⟨i, "Medical", "d", 0, 0, 999, some "X", "active", none, none, none, 0⟩)

def dbMany : DB := ⟨[], manyActive, []⟩

/- Generic lemmas about the store primitives. -/

theorem find?_append_cons {α : Type} (p : α → Bool) (l1 : List α) (x : α) (l2 : List α)
    (h1 : ∀ a ∈ l1, p a = false) (hx : p x = true) :
    (l1 ++ x :: l2).find? p = some x := by
  induction l1 with
  | nil => simp [List.find?_cons_of_pos, hx]
  | cons a as ih =>
    have ha : p a = false := h1 a (by simp)
    rw [List.cons_append, List.find?_cons_of_neg _ (by simp [ha])]
    exact ih (fun b hb => h1 b (by simp [hb]))

theorem updateFirst_eq_none {α : Type} (p : α → Bool) (f : α → α) :
    ∀ (l : List α), (∀ a ∈ l, p a = false) → updateFirst l p f = none := by
  intro l
  induction l with
  | nil => intro _; rfl
  | cons a as ih =>
    intro h
    simp [updateFirst, h a (by simp), ih (fun b hb => h b (by simp [hb]))]

theorem updateFirst_append_cons {α : Type} (p : α → Bool) (f : α → α)
    (l1 : List α) (x : α) (l2 : List α)
    (h1 : ∀ a ∈ l1, p a = false) (hx : p x = true) :
    updateFirst (l1 ++ x :: l2) p f = some (l1 ++ f x :: l2) := by
  induction l1 with
  | nil => simp [updateFirst, hx]
  | cons a as ih =>
    have ha : p a = false := h1 a (by simp)
    simp only [List.cons_append, updateFirst, ha, Bool.false_eq_true, if_false, List.append_eq]
    rw [ih (fun b hb => h1 b (by simp [hb]))]
    rfl

theorem setFirst_append_cons {α : Type} (p : α → Bool) (f : α → α)
    (l1 : List α) (x : α) (l2 : List α)
    (h1 : ∀ a ∈ l1, p a = false) (hx : p x = true) :
    setFirst (l1 ++ x :: l2) p f = l1 ++ f x :: l2 := by
  simp [setFirst, updateFirst_append_cons p f l1 x l2 h1 hx]

theorem notifyLoop_nofail (mk : User → Notification) (fails : Nat → Bool) :
    ∀ (l : List User) (acc : List Notification), (∀ u ∈ l, fails u.id = false) →
      notifyLoop mk fails l acc = (true, acc ++ l.map mk) := by
  intro l
  induction l with
  | nil => intro acc _; simp [notifyLoop]
  | cons u rest ih =>
    intro acc h
    have hrest := ih (acc ++ [mk u]) (fun v hv => h v (by simp [hv]))
    simp [notifyLoop, h u (by simp), hrest]

theorem notifyLoop_failAt (mk : User → Notification) (fails : Nat → Bool)
    (l1 : List User) (b : User) (l2 : List User) :
    ∀ (acc : List Notification), (∀ v ∈ l1, fails v.id = false) → fails b.id = true →
      notifyLoop mk fails (l1 ++ b :: l2) acc = (false, acc ++ l1.map mk) := by
  induction l1 with
  | nil => intro acc _ hb; simp [notifyLoop, hb]
  | cons v vs ih =>
    intro acc h hb
    have hrest := ih (acc ++ [mk v]) (fun w hw => h w (by simp [hw])) hb
    simp [notifyLoop, h v (by simp), hrest]

theorem count_true_map_false {β : Type} (l : List β) :
    ((l.map (fun _ => false)).count true) = 0 := by
  rw [List.count_eq_zero]
  simp

/-- When no stored incident passes the conditional filter, every accept in
the batch reports conflict and the state is untouched. -/
theorem runAccepts_allconflict (eid : Nat) :
    ∀ (callers : List User) (db : DB),
      (∀ e ∈ db.emergencies, (e.id == eid && e.status == "active") = false) →
      runAccepts db eid callers = (callers.map (fun _ => false), db) := by
  intro callers
  induction callers with
  | nil => intro db _; rfl
  | cons c rest ih =>
    intro db h
    have hupd := updateFirst_eq_none
      (fun e => e.id == eid && e.status == "active")
      (fun e => { e with
        status := "accepted"
        helper_id := some c.id
        helper_name := some c.full_name }) db.emergencies h
    simp [runAccepts, accept_emergency, hupd, ih db h]

/-- Successful completion with a helper snapshot present: the incident is
marked resolved, the helper gains exactly 20 points and 1 help, and
exactly one reward notification is appended for the helper. -/
theorem complete_emergency_ok_helper
    (db : DB) (eid : Nat) (closer : User) (now : Nat)
    (e1 e2 : List Incident) (em : Incident) (hid : Nat) (u1 u2 : List User) (h : User)
    (hsplit : db.emergencies = e1 ++ em :: e2)
    (hide : em.id = eid)
    (hfirst : ∀ e ∈ e1, e.id ≠ eid)
    (hcre : em.created_by = closer.id)
    (hh : em.helper_id = some hid)
    (husers : db.users = u1 ++ h :: u2)
    (hhid : h.id = hid)
    (hufirst : ∀ v ∈ u1, v.id ≠ hid) :
    complete_emergency db eid closer now = Except.ok
      { users := u1 ++ { h with points := h.points + 20, helps_given := h.helps_given + 1 } :: u2
        emergencies := e1 ++ { em with status := "resolved" } :: e2
        notifications := db.notifications ++ [rewardDoc closer hid now] } := by
  have hfind : db.emergencies.find? (fun e => e.id == eid) = some em := by
    rw [hsplit]
    exact find?_append_cons _ _ _ _ (fun a ha => by simp [hfirst a ha]) (by simp [hide])
  have hset : setFirst db.emergencies (fun e => e.id == eid)
      (fun e => { e with status := "resolved" }) = e1 ++ { em with status := "resolved" } :: e2 := by
    rw [hsplit]
    exact setFirst_append_cons _ _ _ _ _ (fun a ha => by simp [hfirst a ha]) (by simp [hide])
  have hsetu : setFirst db.users (fun u => u.id == hid)
      (fun u => { u with points := u.points + 20, helps_given := u.helps_given + 1 }) =
      u1 ++ { h with points := h.points + 20, helps_given := h.helps_given + 1 } :: u2 := by
    rw [husers]
    exact setFirst_append_cons _ _ _ _ _ (fun v hv => by simp [hufirst v hv]) (by simp [hhid])
  have hbne : (em.created_by != closer.id) = false := by simp [hcre]
  simp [complete_emergency, hfind, hbne, hh, hset, hsetu]

/-- Successful completion with no helper snapshot: the incident is marked
resolved and nothing else changes. -/
theorem complete_emergency_ok_nohelper
    (db : DB) (eid : Nat) (closer : User) (now : Nat)
    (e1 e2 : List Incident) (em : Incident)
    (hsplit : db.emergencies = e1 ++ em :: e2)
    (hide : em.id = eid)
    (hfirst : ∀ e ∈ e1, e.id ≠ eid)
    (hcre : em.created_by = closer.id)
    (hh : em.helper_id = none) :
    complete_emergency db eid closer now = Except.ok
      { users := db.users
        emergencies := e1 ++ { em with status := "resolved" } :: e2
        notifications := db.notifications } := by
  have hfind : db.emergencies.find? (fun e => e.id == eid) = some em := by
    rw [hsplit]
    exact find?_append_cons _ _ _ _ (fun a ha => by simp [hfirst a ha]) (by simp [hide])
  have hset : setFirst db.emergencies (fun e => e.id == eid)
      (fun e => { e with status := "resolved" }) = e1 ++ { em with status := "resolved" } :: e2 := by
    rw [hsplit]
    exact setFirst_append_cons _ _ _ _ _ (fun a ha => by simp [hfirst a ha]) (by simp [hide])
  have hbne : (em.created_by != closer.id) = false := by simp [hcre]
  simp [complete_emergency, hfind, hbne, hh, hset]

/-- create_emergency on a store without failures: the incident document is
appended and one alert notification is appended per other user, in cursor
order. -/
theorem create_emergency_spec (db : DB) (creator : User) (ty desc : String)
    (lon lat : Int) (now newId : Nat) :
    create_emergency db creator ty desc lon lat now newId =
      ⟨db.users,
       db.emergencies ++ [incidentDoc creator ty desc lon lat now newId],
       db.notifications ++
         (db.users.filter (fun u => u.id != creator.id)).map (alertDoc creator desc now)⟩ := by
  have hloop := notifyLoop_nofail (alertDoc creator desc now) (fun _ => false)
    (db.users.filter (fun u => u.id != creator.id)) db.notifications (fun u _ => rfl)
  simp [create_emergency, create_emergency_f, hloop]

/-- The conditional filter of accept_emergency rejects a document with a
different id. -/
theorem incidentFilter_false_of_ne {e : Incident} {eid : Nat} (h : e.id ≠ eid) :
    (e.id == eid && e.status == "active") = false := by
  rw [Bool.eq_false_iff]
  intro hc
  simp only [Bool.and_eq_true, beq_iff_eq] at hc
  exact h hc.1

/-- The conditional filter of accept_emergency rejects a document whose
status is accepted. -/
theorem incidentFilter_false_of_accepted {e : Incident} {eid : Nat} (h : e.status = "accepted") :
    (e.id == eid && e.status == "active") = false := by
  rw [Bool.eq_false_iff]
  intro hc
  simp only [Bool.and_eq_true, beq_iff_eq] at hc
  rw [h] at hc
  exact absurd hc.2 (by decide)

theorem count_true_replicate_false (n : Nat) : (List.replicate n false).count true = 0 := by
  rw [List.count_eq_zero]
  simp

/-- Claim C1: for any serialization of N concurrent accept calls on an
incident that is in active status (each call is a single atomic
conditional update, so every concurrent execution is equivalent to some
serialization, and the serialization is universally quantified here), the
first call in the order reports success, the other N-1 report conflict,
exactly one success is reported in total, and the final helper identity of
the incident is the single winning caller. -/
theorem accept_race_single_winner
    (db : DB) (eid : Nat) (c : User) (rest : List User)
    (e1 e2 : List Incident) (em : Incident)
    (hsplit : db.emergencies = e1 ++ em :: e2)
    (hide : em.id = eid) (hact : em.status = "active")
    (h1 : ∀ e ∈ e1, e.id ≠ eid) (h2 : ∀ e ∈ e2, e.id ≠ eid) :
    (runAccepts db eid (c :: rest)).1 = true :: rest.map (fun _ => false)
    ∧ (runAccepts db eid (c :: rest)).1.count true = 1
    ∧ (runAccepts db eid (c :: rest)).2.emergencies =
        e1 ++ { em with status := "accepted", helper_id := some c.id, helper_name := some c.full_name } :: e2 := by
  have hupd : updateFirst db.emergencies (fun e => e.id == eid && e.status == "active")
      (fun e => { e with status := "accepted", helper_id := some c.id, helper_name := some c.full_name }) =
      some (e1 ++ { em with status := "accepted", helper_id := some c.id, helper_name := some c.full_name } :: e2) := by
    rw [hsplit]
    exact updateFirst_append_cons _ _ _ _ _
      (fun a ha => incidentFilter_false_of_ne (h1 a ha)) (by simp [hide, hact])
  have hacc : accept_emergency db eid c = Except.ok
      { db with emergencies :=
          e1 ++ { em with status := "accepted", helper_id := some c.id, helper_name := some c.full_name } :: e2 } := by
    simp [accept_emergency, hupd]
  have hall : ∀ e ∈ e1 ++ { em with status := "accepted", helper_id := some c.id, helper_name := some c.full_name } :: e2,
      (e.id == eid && e.status == "active") = false := by
    intro e he
    rcases List.mem_append.mp he with hh | hh
    · exact incidentFilter_false_of_ne (h1 e hh)
    · rcases List.mem_cons.mp hh with rfl | hh2
      · exact incidentFilter_false_of_accepted rfl
      · exact incidentFilter_false_of_ne (h2 e hh2)
  have hrest := runAccepts_allconflict eid rest
    { db with emergencies :=
        e1 ++ { em with status := "accepted", helper_id := some c.id, helper_name := some c.full_name } :: e2 } hall
  refine ⟨?_, ?_, ?_⟩
  · simp [runAccepts, hacc, hrest]
  · simp [runAccepts, hacc, hrest, List.count_cons, count_true_map_false,
      count_true_replicate_false]
  · simp [runAccepts, hacc, hrest]

/-- Claim C1 witness: on the concrete created incident, the serialization
uBob then uCarol yields success for uBob and conflict for uCarol. -/
theorem accept_race_single_winner_witness :
    (runAccepts dbCreated 10 [uBob, uCarol]).1 = true :: [uCarol].map (fun _ => false) :=
  (accept_race_single_winner dbCreated 10 uBob [uCarol] [] [] emActive
    (by decide) (by decide) (by decide) (by simp) (by simp)).1

/-- Claim C3: accept_emergency is a single conditional mutation. When no
stored incident has the requested id with status active (covering absent,
already accepted and already resolved uniformly), it reports the one
conflict signal, a 400 with the one detail string, and no state change;
when the incident with that id is in active status, it succeeds and
rewrites exactly that incident to accepted with the caller as helper
snapshot. -/
theorem accept_conditional_mutation (db : DB) (eid : Nat) (u : User) :
    ((∀ e ∈ db.emergencies, ¬(e.id = eid ∧ e.status = "active")) →
      accept_emergency db eid u = Except.error ⟨400, "Emergency not found or already accepted."⟩)
    ∧ (∀ (e1 : List Incident) (em : Incident) (e2 : List Incident),
        db.emergencies = e1 ++ em :: e2 → em.id = eid → em.status = "active" →
        (∀ e ∈ e1, e.id ≠ eid) →
        accept_emergency db eid u = Except.ok
          { db with emergencies :=
              e1 ++ { em with status := "accepted", helper_id := some u.id, helper_name := some u.full_name } :: e2 }) := by
  constructor
  · intro hall
    have hupd := updateFirst_eq_none (fun e => e.id == eid && e.status == "active")
      (fun e => { e with status := "accepted", helper_id := some u.id, helper_name := some u.full_name })
      db.emergencies (fun e he => by
        rw [Bool.eq_false_iff]
        intro hc
        simp only [Bool.and_eq_true, beq_iff_eq] at hc
        exact hall e he hc)
    simp [accept_emergency, hupd]
  · intro e1 em e2 hsplit hide hact hfirst
    have hupd : updateFirst db.emergencies (fun e => e.id == eid && e.status == "active")
        (fun e => { e with status := "accepted", helper_id := some u.id, helper_name := some u.full_name }) =
        some (e1 ++ { em with status := "accepted", helper_id := some u.id, helper_name := some u.full_name } :: e2) := by
      rw [hsplit]
      exact updateFirst_append_cons _ _ _ _ _
        (fun a ha => incidentFilter_false_of_ne (hfirst a ha)) (by simp [hide, hact])
    simp [accept_emergency, hupd]

/-- Claim C3 witness: on a state with no incidents at all, accept reports
the single conflict signal. -/
theorem accept_conditional_mutation_witness :
    accept_emergency dbSeed 10 uBob = Except.error ⟨400, "Emergency not found or already accepted."⟩ :=
  (accept_conditional_mutation dbSeed 10 uBob).1 (by decide)

/-- Claim C4: complete_emergency reports not-found (404) when no incident
has the requested id, and forbidden (403) whenever the caller is not the
original requester, whatever the helper identity is; both raises occur
before any write. -/
theorem complete_not_found_or_forbidden (db : DB) (eid : Nat) (u : User) (now : Nat) :
    (db.emergencies.find? (fun e => e.id == eid) = none →
      complete_emergency db eid u now = Except.error ⟨404, "Emergency not found"⟩)
    ∧ (∀ em, db.emergencies.find? (fun e => e.id == eid) = some em → em.created_by ≠ u.id →
      complete_emergency db eid u now =
        Except.error ⟨403, "Only the user who requested help can complete the SOS."⟩) := by
  constructor
  · intro hnone
    simp [complete_emergency, hnone]
  · intro em hfind hne
    have hb : (em.created_by != u.id) = true := bne_iff_ne.mpr hne
    simp [complete_emergency, hfind, hb]

/-- Claim C4 witness: the helper uBob, who is not the requester, is
forbidden from completing the concrete incident. -/
theorem complete_not_found_or_forbidden_witness :
    complete_emergency dbCreated 10 uBob 0 =
      Except.error ⟨403, "Only the user who requested help can complete the SOS."⟩ :=
  (complete_not_found_or_forbidden dbCreated 10 uBob 0).2 emActive (by decide) (by decide)

/-- Claim C5: a successful completion on an incident whose snapshot
carries a helper identity gives that helper exactly 20 more points and
exactly 1 more help, and appends exactly one notification, which is of
reward kind and addressed to that helper; with no helper identity the
incident is still marked resolved while the users and notifications are
untouched, a defined no-op rather than an error. -/
theorem complete_reward_effects
    (db : DB) (eid : Nat) (closer : User) (now : Nat)
    (e1 e2 : List Incident) (em : Incident)
    (hsplit : db.emergencies = e1 ++ em :: e2)
    (hide : em.id = eid)
    (hfirst : ∀ e ∈ e1, e.id ≠ eid)
    (hcre : em.created_by = closer.id) :
    (∀ (hid : Nat) (u1 : List User) (h : User) (u2 : List User),
      em.helper_id = some hid → db.users = u1 ++ h :: u2 → h.id = hid →
      (∀ v ∈ u1, v.id ≠ hid) →
      complete_emergency db eid closer now = Except.ok
        { users := u1 ++ { h with points := h.points + 20, helps_given := h.helps_given + 1 } :: u2
          emergencies := e1 ++ { em with status := "resolved" } :: e2
          notifications := db.notifications ++ [rewardDoc closer hid now] }
      ∧ (rewardDoc closer hid now).type = "reward"
      ∧ (rewardDoc closer hid now).user_id = hid)
    ∧ (em.helper_id = none →
      complete_emergency db eid closer now = Except.ok
        { users := db.users
          emergencies := e1 ++ { em with status := "resolved" } :: e2
          notifications := db.notifications }) := by
  constructor
  · intro hid u1 h u2 hh husers hhid hufirst
    exact ⟨complete_emergency_ok_helper db eid closer now e1 e2 em hid u1 u2 h
      hsplit hide hfirst hcre hh husers hhid hufirst, rfl, rfl⟩
  · intro hh
    exact complete_emergency_ok_nohelper db eid closer now e1 e2 em hsplit hide hfirst hcre hh

/-- Claim C5 witness: completing the concrete accepted incident pays uBob
20 points and 1 help and appends one reward notification for uBob. -/
theorem complete_reward_effects_witness :
    complete_emergency dbAccepted 10 uAlice 3 = Except.ok
      { users := [uAlice] ++ { uBob with points := uBob.points + 20, helps_given := uBob.helps_given + 1 } :: [uCarol]
        emergencies := ([] : List Incident) ++ { emAccepted with status := "resolved" } :: ([] : List Incident)
        notifications := dbAccepted.notifications ++ [rewardDoc uAlice 1 3] } :=
  ((complete_reward_effects dbAccepted 10 uAlice 3 [] [] emAccepted
    (by decide) (by decide) (by simp) (by decide)).1
    1 [uAlice] uBob [uCarol] (by decide) (by decide) (by decide) (by decide)).1

/-- Claim C2 counterexample: on a concrete incident accepted by uBob and
already completed once by the requester uAlice, a second complete call by
uAlice is not rejected: it reports success again, moves uBob from 20 to 40
points and from 1 to 2 helps, and a second reward notification for uBob is
stored, contradicting the claimed at-most-once reward. -/
theorem complete_replay_counterexample :
    (complete_emergency dbAccepted 10 uAlice 3).toOption = some dbResolved
    ∧ (complete_emergency dbResolved 10 uAlice 4).toOption = some dbResolvedTwice
    ∧ dbResolved.users.map (fun u => (u.id, u.points, u.helps_given)) =
        [(0, 0, 0), (1, 20, 1), (2, 0, 0)]
    ∧ dbResolvedTwice.users.map (fun u => (u.id, u.points, u.helps_given)) =
        [(0, 0, 0), (1, 40, 2), (2, 0, 0)]
    ∧ (dbResolvedTwice.notifications.filter (fun n => n.type == "reward" && n.user_id == 1)).length = 2 := by
  decide

/-- Claim C2 amended: the completion reward is applied once per successful
complete call rather than at most once per incident. complete_emergency
checks only that the incident exists and that the caller is the
requester, never the status, and its resolved write is unconditional; so
a second complete call by the requester on an already resolved incident
succeeds again, leaves the incident resolved, and applies the ledger
mutation and reward notification a further time. -/
theorem complete_replay_reapplies_reward
    (db : DB) (eid : Nat) (closer : User) (now : Nat)
    (e1 e2 : List Incident) (em : Incident) (hid : Nat) (u1 u2 : List User) (h : User)
    (hsplit : db.emergencies = e1 ++ em :: e2)
    (hide : em.id = eid)
    (hfirst : ∀ e ∈ e1, e.id ≠ eid)
    (hres : em.status = "resolved")
    (hcre : em.created_by = closer.id)
    (hh : em.helper_id = some hid)
    (husers : db.users = u1 ++ h :: u2)
    (hhid : h.id = hid)
    (hufirst : ∀ v ∈ u1, v.id ≠ hid) :
    complete_emergency db eid closer now = Except.ok
      { users := u1 ++ { h with points := h.points + 20, helps_given := h.helps_given + 1 } :: u2
        emergencies := e1 ++ em :: e2
        notifications := db.notifications ++ [rewardDoc closer hid now] } := by
  have base := complete_emergency_ok_helper db eid closer now e1 e2 em hid u1 u2 h
    hsplit hide hfirst hcre hh husers hhid hufirst
  have hsame : ({ em with status := "resolved" } : Incident) = em := by
    cases em
    simp_all
  rw [hsame] at base
  exact base

/-- Claim C2 amended witness: the second complete call on the concrete
resolved incident succeeds and pays uBob again. -/
theorem complete_replay_reapplies_reward_witness :
    complete_emergency dbResolved 10 uAlice 4 = Except.ok
      { users := [uAlice] ++ { uBobRewarded with points := uBobRewarded.points + 20, helps_given := uBobRewarded.helps_given + 1 } :: [uCarol]
        emergencies := ([] : List Incident) ++ emResolved :: ([] : List Incident)
        notifications := dbResolved.notifications ++ [rewardDoc uAlice 1 4] } :=
  complete_replay_reapplies_reward dbResolved 10 uAlice 4 [] [] emResolved 1 [uAlice] [uCarol] uBobRewarded
    (by decide) (by decide) (by simp) (by decide) (by decide) (by decide) (by decide) (by decide) (by decide)

/-- Claim C6: create_emergency inserts the incident in active status with
a snapshot of the requester display name, and appends exactly K alert
notifications when K other users are known: one per other user, in cursor
order, and none addressed to the creator. -/
theorem create_fanout_alerts (db : DB) (creator : User) (ty desc : String)
    (lon lat : Int) (now newId : Nat) :
    (create_emergency db creator ty desc lon lat now newId).emergencies =
      db.emergencies ++ [incidentDoc creator ty desc lon lat now newId]
    ∧ (incidentDoc creator ty desc lon lat now newId).status = "active"
    ∧ (incidentDoc creator ty desc lon lat now newId).created_name = some creator.full_name
    ∧ ((create_emergency db creator ty desc lon lat now newId).notifications.drop
        db.notifications.length).length = (db.users.filter (fun u => u.id != creator.id)).length
    ∧ ((create_emergency db creator ty desc lon lat now newId).notifications.drop
        db.notifications.length).map (fun n => n.user_id) =
        (db.users.filter (fun u => u.id != creator.id)).map (fun u => u.id)
    ∧ (∀ n ∈ (create_emergency db creator ty desc lon lat now newId).notifications.drop
        db.notifications.length, n.type = "alert" ∧ n.user_id ≠ creator.id)
    ∧ (create_emergency db creator ty desc lon lat now newId).notifications.take
        db.notifications.length = db.notifications := by
  rw [create_emergency_spec]
  refine ⟨rfl, rfl, rfl, ?_, ?_, ?_, ?_⟩
  · simp [List.drop_left]
  · simp only [List.drop_left]
    simp [List.map_map, Function.comp, alertDoc]
  · simp only [List.drop_left]
    intro n hn
    rcases List.mem_map.mp hn with ⟨u, hu, rfl⟩
    refine ⟨rfl, ?_⟩
    have := (List.mem_filter.mp hu).2
    exact bne_iff_ne.mp this
  · simp [List.take_left]

/-- Claim C6 witness: on the concrete seed state the two alert
notifications go to uBob and uCarol in order, one each. -/
theorem create_fanout_alerts_witness :
    ((create_emergency dbSeed uAlice "Medical" "fall" 3 4 1 10).notifications.drop
      dbSeed.notifications.length).map (fun n => n.user_id) =
      (dbSeed.users.filter (fun u => u.id != uAlice.id)).map (fun u => u.id) :=
  (create_fanout_alerts dbSeed uAlice "Medical" "fall" 3 4 1 10).2.2.2.2.1

/-- Claim C7 counterexample: with three known users and a store on which
the notification insert for uBob (the first of the two other recipients)
fails, the incident insert still commits, but the remaining recipient
uCarol receives no notification and the failure propagates out of the
handler instead of being swallowed per recipient. -/
theorem fanout_failure_counterexample :
    (create_emergency_f dbSeed uAlice "Fire" "fire" 0 0 1 11 failsBob).1 = false
    ∧ (create_emergency_f dbSeed uAlice "Fire" "fire" 0 0 1 11 failsBob).2.emergencies =
        [incidentDoc uAlice "Fire" "fire" 0 0 1 11]
    ∧ (create_emergency_f dbSeed uAlice "Fire" "fire" 0 0 1 11 failsBob).2.notifications = [] := by
  decide

/-- Claim C7 amended: the incident insert has already committed when the
fan-out runs and is never undone, and the notifications written before the
failing recipient persist; but the loop body has no per-recipient handler,
so the first failing insert aborts the notifications for all remaining
recipients and the failure propagates to the caller instead of being
swallowed. -/
theorem fanout_failure_aborts_rest
    (db : DB) (creator : User) (ty desc : String) (lon lat : Int) (now newId : Nat)
    (fails : Nat → Bool) (l1 : List User) (b : User) (l2 : List User)
    (hothers : db.users.filter (fun u => u.id != creator.id) = l1 ++ b :: l2)
    (h1 : ∀ v ∈ l1, fails v.id = false) (hb : fails b.id = true) :
    (create_emergency_f db creator ty desc lon lat now newId fails).1 = false
    ∧ (create_emergency_f db creator ty desc lon lat now newId fails).2.emergencies =
        db.emergencies ++ [incidentDoc creator ty desc lon lat now newId]
    ∧ (create_emergency_f db creator ty desc lon lat now newId fails).2.notifications =
        db.notifications ++ l1.map (alertDoc creator desc now)
    ∧ (create_emergency_f db creator ty desc lon lat now newId fails).2.users = db.users := by
  have hloop := notifyLoop_failAt (alertDoc creator desc now) fails l1 b l2
    db.notifications h1 hb
  refine ⟨?_, ?_, ?_, ?_⟩ <;>
    simp [create_emergency_f, hothers, hloop]

/-- Claim C7 amended witness: with the failing recipient first in the
cursor order, the committed state holds the incident and no
notifications. -/
theorem fanout_failure_aborts_rest_witness :
    (create_emergency_f dbSeed uAlice "Fire" "fire" 0 0 1 11 failsBob).2.notifications =
      dbSeed.notifications ++ ([] : List User).map (alertDoc uAlice "fire" 1) :=
  (fanout_failure_aborts_rest dbSeed uAlice "Fire" "fire" 0 0 1 11 failsBob [] uBob [uCarol]
    (by decide) (by simp) (by decide)).2.2.1

/-- Claim C8, evaluated at the failing input: uBob accepts the concrete
incident (the store records helper_id 1 while accepted_by stays absent)
and uAlice completes it (status resolved, not the completed tag that
get_history tests for points); the history of uBob is then empty, although
uBob is the helper of a resolved incident, because the responded query of
get_history filters on the accepted_by field that the accept endpoint
never writes. -/
theorem history_misses_helper_incidents :
    (accept_emergency dbCreated 10 uBob).toOption = some dbAccepted
    ∧ (complete_emergency dbAccepted 10 uAlice 3).toOption = some dbResolved
    ∧ dbResolved.emergencies.map (fun e => (e.status, e.helper_id, e.accepted_by)) =
        [("resolved", some 1, none)]
    ∧ get_history dbResolved uBob = [] := by
  decide

/-- Claim C9 counterexample: with 101 active incidents the endpoint
returns only 100 of them, because the cursor is drained with
to_list(length=100); so it does not return all active incidents. -/
theorem list_active_cap_counterexample :
    (dbMany.emergencies.filter (fun e => e.status == "active")).length = 101
    ∧ (get_nearby_emergencies dbMany 0).1.length = 100 := by
  decide

/-- Claim C9 amended: whenever at most 100 incidents are active,
get_nearby_emergencies returns one projected entry per active incident
(id, category tag, description, coordinates, requester display name,
status, timestamp), every active incident appears, and the reported
participant count is the number of users whose last_active timestamp lies
within the trailing one-hour window. -/
theorem list_active_projection (db : DB) (now : Nat)
    (hcap : (db.emergencies.filter (fun e => e.status == "active")).length ≤ 100) :
    (get_nearby_emergencies db now).1.length =
      (db.emergencies.filter (fun e => e.status == "active")).length
    ∧ (∀ e ∈ db.emergencies, e.status = "active" →
        ({ id := e.id, type := e.type, description := e.description, lat := e.lat, lon := e.lon,
           created_by := e.created_name.getD "Someone", status := e.status,
           created_at := e.created_at } : NearbyEmergency) ∈ (get_nearby_emergencies db now).1)
    ∧ (get_nearby_emergencies db now).2 =
        (db.users.filter (fun u => u.last_active.any (fun t => decide (now - 3600 ≤ t)))).length := by
  have htake : (db.emergencies.filter (fun e => e.status == "active")).take 100 =
      db.emergencies.filter (fun e => e.status == "active") := List.take_of_length_le hcap
  refine ⟨?_, ?_, ?_⟩
  · simp [get_nearby_emergencies, htake]
  · intro e he hst
    simp only [get_nearby_emergencies, htake]
    exact List.mem_map_of_mem _ (List.mem_filter.mpr ⟨he, by simp [hst]⟩)
  · have hpred : ∀ u : User,
        (match u.last_active with
          | some t => decide (now - 3600 ≤ t)
          | none => false) = u.last_active.any (fun t => decide (now - 3600 ≤ t)) := by
      intro u
      cases u.last_active with
      | none => simp [Option.any]
      | some t => simp [Option.any]
    simp only [get_nearby_emergencies]
    rw [List.filter_congr (fun u _ => hpred u)]

/-- Claim C9 amended witness: the concrete one-incident state is projected
in full. -/
theorem list_active_projection_witness :
    (get_nearby_emergencies dbCreated 5000).1.length =
      (dbCreated.emergencies.filter (fun e => e.status == "active")).length :=
  (list_active_projection dbCreated 5000 (by decide)).1

/-- Claim C10, evaluated: the requester uAlice may accept her own active
incident (no check separates helper from requester), then complete it
herself, earning the 20 point reward and the reward notification herself;
but the incident then appears only in the requested view of her history
and not in the responded view, because the responded query filters on the
accepted_by field that the accept endpoint never writes. -/
theorem self_help_history_eval :
    (accept_emergency dbCreated 10 uAlice).toOption = some dbSelfAccepted
    ∧ (complete_emergency dbSelfAccepted 10 uAlice 3).toOption = some dbSelfResolved
    ∧ dbSelfAccepted.emergencies.map (fun e => (e.status, e.helper_id)) = [("accepted", some 0)]
    ∧ dbSelfResolved.users.map (fun u => (u.id, u.points, u.helps_given)) =
        [(0, 20, 1), (1, 0, 0), (2, 0, 0)]
    ∧ (dbSelfResolved.notifications.filter (fun n => n.type == "reward" && n.user_id == 0)).length = 1
    ∧ ((get_history dbSelfResolved uAlice).filter (fun h => h.type == "requested")).length = 1
    ∧ ((get_history dbSelfResolved uAlice).filter (fun h => h.type == "responded")).length = 0 := by
  decide

end HelpOn
